import Mathlib

/-!
Verification of the Songamizer client-side screen controller
(src/static/js/app.js) via a shallow embedding in Lean 4.

The controller is a single class `SongamizerApp` holding the current
screen, the selected playlist, the current track, a play counter, a
color-rotation index, an audio element and a handful of DOM text fields.
Backend calls are `fetch` invocations whose outcome (resolve with a JSON
body, resolve with a non-2xx status, or reject) is passed to each
embedded operation as an explicit parameter.  DOM writes, alerts,
navigations and issued fetches are recorded as an effect list.
-/

/-- Screens of the app, as named in `showScreen` calls. -/
inductive Screen where
  | connect
  | playlist
  | game
  | reveal
deriving DecidableEq, Repr

/-- A playlist as held by the controller: `{id, name}`. -/
structure Playlist where
  id : String
  name : String
deriving DecidableEq, Repr

/-- A track from `/api/play-track`: name, artist, and optional
year / stream_url / spotify_url fields (absent JSON fields are `none`). -/
structure Track where
  name : String
  artist : String
  year : Option String
  stream_url : Option String
  spotify_url : Option String
deriving DecidableEq, Repr

/-- The `<audio id="audioPlayer">` element: its `src` and paused flag. -/
structure AudioPlayer where
  src : String
  paused : Bool
deriving DecidableEq, Repr

/-- DOM text fields the controller writes to. -/
structure Dom where
  artistName : String
  releaseYear : String
  songName : String
  tracksPlayedText : String
  revealTracksPlayedText : String
  revealCardClass : String
deriving DecidableEq, Repr

/-- The mutable state of the `SongamizerApp` instance, plus the
`localStorage` entry under the key `spotify_session`. -/
structure AppState where
  currentScreen : Screen
  selectedPlaylist : Option Playlist
  currentTrack : Option Track
  tracksPlayed : Nat
  currentColorIndex : Nat
  audio : AudioPlayer
  dom : Dom
  localStore : Option String
deriving DecidableEq, Repr

/-- Observable side effects of an operation, in order of occurrence. -/
inductive Effect where
  | fetchAuthorize
  | fetchPlaylists
  | fetchAddPlaylist (url : String)
  | fetchRemovePlaylist (id : String)
  | fetchPlayTrack (playlistId : String)
  | fetchReset
  | alert (msg : String)
  | navigate (url : String)
  | logError
deriving DecidableEq, Repr

/-- Outcome of an awaited `fetch(...)` whose body is then parsed:
`thrown` covers both a rejected fetch (network error) and a body whose
JSON parse throws; `value a` is a successfully parsed body. -/
inductive JsonOutcome (α : Type) where
  | thrown
  | value (a : α)
deriving DecidableEq, Repr

/-- Outcome of an awaited `fetch(...)` whose body is ignored, as in
`resetGame`: the promise resolves (with any HTTP status, `ok` records
2xx or not) or rejects (network error). -/
inductive FetchOutcome where
  | resolved (ok : Bool)
  | rejected
deriving DecidableEq, Repr

/-- JavaScript truthiness of a nullable string: `null` and `""` are
falsy, every other string is truthy. -/
def strTruthy : Option String → Bool
  | none => false
  | some s => s != ""

/-- `showScreen(screenName)`: toggles the active screen class and sets
`this.currentScreen = screenName`. -/
def showScreen (name : Screen) (s : AppState) : AppState :=
  { s with currentScreen := name }

/-- `updateTrackCounter()`: writes the counter into the two DOM fields. -/
def updateTrackCounter (s : AppState) : AppState :=
  { s with dom := { s.dom with
      tracksPlayedText := toString s.tracksPlayed,
      revealTracksPlayedText := toString s.tracksPlayed } }

/-- `checkAuthStatus()`: reads `session_id` from the URL; if truthy,
persists it and shows the playlist screen (after triggering a playlist
load); else if the stored `spotify_session` is truthy, shows the
playlist screen; else shows the connect screen. -/
def checkAuthStatus (urlSessionId : Option String) (s : AppState) :
    AppState × List Effect :=
  match urlSessionId with
  | some sid =>
    if sid != "" then
      (showScreen Screen.playlist { s with localStore := some sid },
       [Effect.fetchPlaylists])
    else if strTruthy s.localStore then
      (showScreen Screen.playlist s, [Effect.fetchPlaylists])
    else
      (showScreen Screen.connect s, [])
  | none =>
    if strTruthy s.localStore then
      (showScreen Screen.playlist s, [Effect.fetchPlaylists])
    else
      (showScreen Screen.connect s, [])

/-- `connectToSpotify()`: fetches `/api/spotify/authorize`; on a parsed
body, navigates to `data.auth_url` only when it is truthy; a thrown
error is logged and alerted.  The parsed body is modelled by its
`auth_url` field (absent field = `none`). -/
def connectToSpotify (o : JsonOutcome (Option String)) (s : AppState) :
    AppState × List Effect :=
  match o with
  | JsonOutcome.thrown =>
      (s, [Effect.fetchAuthorize, Effect.logError,
           Effect.alert "Failed to connect to Spotify. Please try again."])
  | JsonOutcome.value none => (s, [Effect.fetchAuthorize])
  | JsonOutcome.value (some u) =>
      if u != "" then (s, [Effect.fetchAuthorize, Effect.navigate u])
      else (s, [Effect.fetchAuthorize])

/-- `selectPlaylist(playlist, element)`: marks the playlist selected
(the DOM highlight and start-button enabling are not part of the
modelled state). -/
def selectPlaylist (p : Playlist) (s : AppState) : AppState :=
  { s with selectedPlaylist := some p }

/-- `playRandomTrack()`: fetches `/api/play-track/${selectedPlaylist.id}`.
If `selectedPlaylist` is null, reading `.id` throws a TypeError before
the fetch, caught by the catch block (log + alert).  On a parsed body
containing `track`, stores it, increments the counter, updates the DOM
counter fields, and starts audio when `stream_url` is truthy (an
autoplay rejection is only logged, so the paused flag is modelled as
cleared).  A body without `track` does nothing further; a thrown error
is logged and alerted. -/
def playRandomTrack (o : JsonOutcome (Option Track)) (s : AppState) :
    AppState × List Effect :=
  match s.selectedPlaylist with
  | none =>
      (s, [Effect.logError,
           Effect.alert "Failed to load track. Please try again."])
  | some p =>
    match o with
    | JsonOutcome.thrown =>
        (s, [Effect.fetchPlayTrack p.id, Effect.logError,
             Effect.alert "Failed to load track. Please try again."])
    | JsonOutcome.value none =>
        (s, [Effect.fetchPlayTrack p.id])
    | JsonOutcome.value (some t) =>
        let s1 := updateTrackCounter
          { s with currentTrack := some t, tracksPlayed := s.tracksPlayed + 1 }
        let s2 :=
          match t.stream_url with
          | some u =>
              if u != "" then { s1 with audio := { src := u, paused := false } }
              else s1
          | none => s1
        (s2, [Effect.fetchPlayTrack p.id])

/-- `startGame()`: alerts and returns if no playlist is selected;
otherwise shows the game screen and plays a random track. -/
def startGame (o : JsonOutcome (Option Track)) (s : AppState) :
    AppState × List Effect :=
  match s.selectedPlaylist with
  | none => (s, [Effect.alert "Please select a playlist first."])
  | some _ => playRandomTrack o (showScreen Screen.game s)

/-- `getNextCardColor()` data: the fixed 8-color list. -/
def cardColors : List String :=
  ["card-color-1", "card-color-2", "card-color-3", "card-color-4",
   "card-color-5", "card-color-6", "card-color-7", "card-color-8"]

/-- `getNextCardColor()`: returns `cardColors[currentColorIndex]` and
advances the index by one modulo `cardColors.length`. -/
def getNextCardColor (i : Nat) : String × Nat :=
  (cardColors.getD i "", (i + 1) % cardColors.length)

/-- `revealCard()`: alerts and returns if no track is loaded; otherwise
fills the reveal-screen fields (year defaulting to "Unknown" when the
field is falsy), applies the next rotating card color, and shows the
reveal screen. -/
def revealCard (s : AppState) : AppState × List Effect :=
  match s.currentTrack with
  | none => (s, [Effect.alert "No track loaded. Please try again."])
  | some t =>
      let yearText :=
        match t.year with
        | some y => if y != "" then y else "Unknown"
        | none => "Unknown"
      let nc := getNextCardColor s.currentColorIndex
      let s1 := { s with
        dom := { s.dom with
          artistName := t.artist,
          releaseYear := yearText,
          songName := t.name,
          revealTracksPlayedText := toString s.tracksPlayed,
          revealCardClass := "reveal-card " ++ nc.1 },
        currentColorIndex := nc.2 }
      (showScreen Screen.reveal s1, [])

/-- `playNextSong()`: shows the game screen and plays a random track. -/
def playNextSong (o : JsonOutcome (Option Track)) (s : AppState) :
    AppState × List Effect :=
  playRandomTrack o (showScreen Screen.game s)

/-- `resetGame()`: awaits `POST /api/reset`; when the promise resolves
(any HTTP status), zeroes the counter, clears the track, updates the
counter DOM fields, pauses and clears the audio, and shows the playlist
screen.  When the fetch rejects, the catch block only logs, so none of
the local resets run. -/
def resetGame (f : FetchOutcome) (s : AppState) : AppState × List Effect :=
  match f with
  | FetchOutcome.resolved _ =>
      let s1 := updateTrackCounter
        { s with tracksPlayed := 0, currentTrack := none }
      let s2 := { s1 with audio := { src := "", paused := true } }
      (showScreen Screen.playlist s2, [Effect.fetchReset])
  | FetchOutcome.rejected =>
      (s, [Effect.fetchReset, Effect.logError])

/-- The state built by the `SongamizerApp` constructor, before `init()`
runs: connect screen, nothing selected, no track, counter zero, color
index zero; the audio element, DOM text and stored session are whatever
the page supplies. -/
def mkConstructorState (store : Option String) (d : Dom) (a : AudioPlayer) :
    AppState :=
  { currentScreen := Screen.connect, selectedPlaylist := none,
    currentTrack := none, tracksPlayed := 0, currentColorIndex := 0,
    audio := a, dom := d, localStore := store }

/-- User events the bound buttons can raise, each carrying the outcome
of the backend call it triggers (when it triggers one). -/
inductive Event where
  | connectClick (o : JsonOutcome (Option String))
  | addPlaylistClick
  | removePlaylistClick
  | selectPlaylistClick (p : Playlist)
  | startClick (o : JsonOutcome (Option Track))
  | revealClick
  | playNextClick (o : JsonOutcome (Option Track))
  | spotifyClick
  | resetClick (f : FetchOutcome)
  | headerPlayClick
deriving DecidableEq, Repr

/-- Modelled from the spec: the page markup (index.html) placing each
button on a screen is not under src/; availability of each event per
active screen follows the spec's state machine in section 4.1 and the
screen comments in `bindEvents` — connect button on the connect screen;
add/select/start on the playlist screen; reveal on the game screen;
play-next and open-in-Spotify on the reveal screen; reset from any
state ("any state → playlist: triggered by reset"); the header play
button everywhere. -/
def eventAllowed : Event → Screen → Bool
  | Event.connectClick _, sc => sc == Screen.connect
  | Event.addPlaylistClick, sc => sc == Screen.playlist
  | Event.removePlaylistClick, sc => sc == Screen.playlist
  | Event.selectPlaylistClick _, sc => sc == Screen.playlist
  | Event.startClick _, sc => sc == Screen.playlist
  | Event.revealClick, sc => sc == Screen.game
  | Event.playNextClick _, sc => sc == Screen.reveal
  | Event.spotifyClick, sc => sc == Screen.reveal
  | Event.resetClick _, _ => true
  | Event.headerPlayClick, _ => true

/-- State transition of one event (`addPlaylist`, `removePlaylist` and
`openInSpotify` never touch the modelled state fields). -/
def stepState : Event → AppState → AppState
  | Event.connectClick o, s => (connectToSpotify o s).1
  | Event.addPlaylistClick, s => s
  | Event.removePlaylistClick, s => s
  | Event.selectPlaylistClick p, s => selectPlaylist p s
  | Event.startClick o, s => (startGame o s).1
  | Event.revealClick, s => (revealCard s).1
  | Event.playNextClick o, s => (playNextSong o s).1
  | Event.spotifyClick, s => s
  | Event.resetClick f, s => (resetGame f s).1
  | Event.headerPlayClick, s => showScreen Screen.playlist s

/-- Whether an event is one of the two reset buttons. -/
def Event.isReset : Event → Bool
  | Event.resetClick _ => true
  | _ => false

/-- States reachable by the controller: the constructor state after
`checkAuthStatus` (for any URL parameter, stored session and page
content), closed under events allowed on the active screen. -/
inductive Reachable : AppState → Prop where
  | init (url store : Option String) (d : Dom) (a : AudioPlayer) :
      Reachable (checkAuthStatus url (mkConstructorState store d a)).1
  | step (e : Event) (s : AppState) :
      Reachable s → eventAllowed e s.currentScreen = true →
      Reachable (stepState e s)

/-- The screen/selection invariant: on the game and reveal screens a
playlist is selected. -/
def screenInv (s : AppState) : Bool :=
  match s.currentScreen with
  | Screen.game => s.selectedPlaylist.isSome
  | Screen.reveal => s.selectedPlaylist.isSome
  | _ => true

/-! Concrete fixtures used by counterexamples and witnesses. -/

/-- A page DOM fixture. -/
def d0 : Dom :=
  { artistName := "", releaseYear := "", songName := "",
    tracksPlayedText := "0", revealTracksPlayedText := "0",
    revealCardClass := "reveal-card" }

/-- An audio element fixture. -/
def a0 : AudioPlayer := { src := "", paused := true }

/-- A playlist fixture. -/
def p0 : Playlist := { id := "pl1", name := "My Playlist" }

/-- A track fixture with no year. -/
def t0 : Track :=
  { name := "X", artist := "Y", year := none, stream_url := none,
    spotify_url := none }

/-- A track fixture with all optional fields present. -/
def t1 : Track :=
  { name := "Song", artist := "Band", year := some "1999",
    stream_url := some "http://s", spotify_url := some "http://sp" }

/-! Helper lemmas about the embedded operations. -/

/-- `connectToSpotify` never mutates the controller state. -/
theorem connectToSpotify_state (o : JsonOutcome (Option String))
    (s : AppState) : (connectToSpotify o s).1 = s := by
  rcases o with _ | (_ | u)
  · rfl
  · rfl
  · simp only [connectToSpotify]
    split <;> rfl

/-- `playRandomTrack` changes neither the active screen nor the selected
playlist. -/
theorem playRandomTrack_frame (o : JsonOutcome (Option Track))
    (s : AppState) :
    (playRandomTrack o s).1.currentScreen = s.currentScreen ∧
    (playRandomTrack o s).1.selectedPlaylist = s.selectedPlaylist := by
  unfold playRandomTrack
  rcases hsel : s.selectedPlaylist with _ | p
  · simp [hsel]
  · rcases o with _ | (_ | t)
    · simp [hsel]
    · simp [hsel]
    · rcases hu : t.stream_url with _ | u
      · simp [hsel, hu, updateTrackCounter]
      · simp only [hsel, hu, updateTrackCounter]
        split <;> simp

/-- The alert raised by `startGame` when nothing is selected never
appears among the effects of `playRandomTrack`. -/
theorem playRandomTrack_noSelectAlert (o : JsonOutcome (Option Track))
    (s : AppState) :
    Effect.alert "Please select a playlist first." ∉
      (playRandomTrack o s).2 := by
  unfold playRandomTrack
  rcases hsel : s.selectedPlaylist with _ | p
  · simp [hsel]
  · rcases o with _ | (_ | t)
    · simp [hsel]
    · simp [hsel]
    · simp [hsel]

/-- `revealCard` never changes the selected playlist. -/
theorem revealCard_playlist (s : AppState) :
    (revealCard s).1.selectedPlaylist = s.selectedPlaylist := by
  unfold revealCard
  rcases ht : s.currentTrack with _ | t
  · simp [ht]
  · simp [ht, showScreen]

/-- A state with a selected playlist satisfies the screen invariant. -/
theorem screenInv_of_isSome (s : AppState)
    (h : s.selectedPlaylist.isSome = true) : screenInv s = true := by
  unfold screenInv
  cases s.currentScreen <;> simp [h]

/-- On the game screen, the invariant yields a selected playlist. -/
theorem screenInv_game (s : AppState) (h : screenInv s = true)
    (hg : s.currentScreen = Screen.game) :
    s.selectedPlaylist.isSome = true := by
  unfold screenInv at h
  rw [hg] at h
  exact h

/-- On the reveal screen, the invariant yields a selected playlist. -/
theorem screenInv_reveal (s : AppState) (h : screenInv s = true)
    (hg : s.currentScreen = Screen.reveal) :
    s.selectedPlaylist.isSome = true := by
  unfold screenInv at h
  rw [hg] at h
  exact h

/-- `checkAuthStatus` always lands on the playlist or connect screen, so
its result satisfies the screen invariant. -/
theorem checkAuthStatus_screenInv (url : Option String) (s : AppState) :
    screenInv (checkAuthStatus url s).1 = true := by
  unfold checkAuthStatus
  split
  · split
    · rfl
    · split <;> rfl
  · split <;> rfl

/-- `revealCard` leaves the play counter unchanged. -/
theorem revealCard_tracks (s : AppState) :
    (revealCard s).1.tracksPlayed = s.tracksPlayed := by
  unfold revealCard
  rcases ht : s.currentTrack with _ | t
  · simp [ht]
  · simp [ht, showScreen]

/-- Every event allowed on the current screen preserves the screen
invariant. -/
theorem stepState_preserves_screenInv (e : Event) (s : AppState)
    (ha : eventAllowed e s.currentScreen = true)
    (hi : screenInv s = true) : screenInv (stepState e s) = true := by
  cases e with
  | connectClick o =>
      simpa [stepState, connectToSpotify_state] using hi
  | addPlaylistClick => simpa [stepState] using hi
  | removePlaylistClick => simpa [stepState] using hi
  | selectPlaylistClick p =>
      apply screenInv_of_isSome
      simp [stepState, selectPlaylist]
  | startClick o =>
      rcases hsel : s.selectedPlaylist with _ | p
      · simpa [stepState, startGame, hsel] using hi
      · apply screenInv_of_isSome
        have hf := (playRandomTrack_frame o (showScreen Screen.game s)).2
        simp only [stepState, startGame, hsel]
        rw [hf]
        show s.selectedPlaylist.isSome = true
        rw [hsel]
        rfl
  | revealClick =>
      have hg : s.currentScreen = Screen.game := by
        simpa [eventAllowed] using ha
      apply screenInv_of_isSome
      have hsome := screenInv_game s hi hg
      simp only [stepState]
      rw [revealCard_playlist]
      exact hsome
  | playNextClick o =>
      have hg : s.currentScreen = Screen.reveal := by
        simpa [eventAllowed] using ha
      apply screenInv_of_isSome
      have hf := (playRandomTrack_frame o (showScreen Screen.game s)).2
      simp only [stepState, playNextSong]
      rw [hf]
      show s.selectedPlaylist.isSome = true
      exact screenInv_reveal s hi hg
  | spotifyClick => simpa [stepState] using hi
  | resetClick f =>
      cases f with
      | resolved ok => rfl
      | rejected => simpa [stepState, resetGame] using hi
  | headerPlayClick => rfl

/-- Every reachable state satisfies the screen invariant. -/
theorem reachable_screenInv (s : AppState) (h : Reachable s) :
    screenInv s = true := by
  induction h with
  | init url store d a => exact checkAuthStatus_screenInv url _
  | step e s hs ha ih => exact stepState_preserves_screenInv e s ha ih

/-- A successful track fetch with a selected playlist increments the
play counter by exactly one. -/
theorem playRandomTrack_tracks_succ (t : Track) (p : Playlist)
    (s : AppState) (hsel : s.selectedPlaylist = some p) :
    (playRandomTrack (JsonOutcome.value (some t)) s).1.tracksPlayed =
      s.tracksPlayed + 1 := by
  unfold playRandomTrack
  rcases hu : t.stream_url with _ | u
  · simp [hsel, hu, updateTrackCounter]
  · simp only [hsel, hu, updateTrackCounter]
    split <;> simp

/-- `playRandomTrack` never decreases the play counter. -/
theorem playRandomTrack_tracks_mono (o : JsonOutcome (Option Track))
    (s : AppState) :
    s.tracksPlayed ≤ (playRandomTrack o s).1.tracksPlayed := by
  unfold playRandomTrack
  rcases hsel : s.selectedPlaylist with _ | p
  · simp [hsel]
  · rcases o with _ | (_ | t)
    · simp [hsel]
    · simp [hsel]
    · rcases hu : t.stream_url with _ | u
      · simp [hsel, hu, updateTrackCounter]
      · simp only [hsel, hu, updateTrackCounter]
        split <;> simp

/-- An unsuccessful track fetch leaves the play counter unchanged. -/
theorem playRandomTrack_tracks_frame (s : AppState) :
    (playRandomTrack JsonOutcome.thrown s).1.tracksPlayed =
      s.tracksPlayed ∧
    (playRandomTrack (JsonOutcome.value none) s).1.tracksPlayed =
      s.tracksPlayed := by
  unfold playRandomTrack
  rcases hsel : s.selectedPlaylist with _ | p <;> simp [hsel]

/-- A mid-game state: on the game screen, playlist `p0` selected, track
`t1` loaded and playing, five tracks played. -/
def cx1 : AppState :=
  { currentScreen := Screen.game, selectedPlaylist := some p0,
    currentTrack := some t1, tracksPlayed := 5, currentColorIndex := 2,
    audio := { src := "http://s", paused := false }, dom := d0,
    localStore := some "tok" }

/-- C1 counterexample: when the `POST /api/reset` fetch rejects (network
error), the claim says the local reset still happens, but in the code
the local resets sit after `await fetch` inside the `try` block, so the
rejection jumps to the catch and skips them all: from `cx1` the counter
stays 5, the track stays loaded, the audio keeps playing and the screen
stays `game`. -/
theorem C1_counterexample :
    (resetGame FetchOutcome.rejected cx1).1.tracksPlayed = 5 ∧
    (resetGame FetchOutcome.rejected cx1).1.currentTrack = some t1 ∧
    (resetGame FetchOutcome.rejected cx1).1.audio.paused = false ∧
    (resetGame FetchOutcome.rejected cx1).1.currentScreen = Screen.game :=
  ⟨rfl, rfl, rfl, rfl⟩

/-- C1 (amended): `resetGame` performs the local reset (counter 0, track
cleared, audio stopped and emptied, screen `playlist`) whenever the
backend call resolves — with a 2xx or a non-2xx status alike — but when
the fetch rejects, the failure is only logged and no local state
changes. -/
theorem C1_resetGame_local_reset (s : AppState) (ok : Bool) :
    (resetGame (FetchOutcome.resolved ok) s).1.tracksPlayed = 0 ∧
    (resetGame (FetchOutcome.resolved ok) s).1.currentTrack = none ∧
    (resetGame (FetchOutcome.resolved ok) s).1.audio.paused = true ∧
    (resetGame (FetchOutcome.resolved ok) s).1.audio.src = "" ∧
    (resetGame (FetchOutcome.resolved ok) s).1.currentScreen =
      Screen.playlist ∧
    (resetGame FetchOutcome.rejected s).1 = s :=
  ⟨rfl, rfl, rfl, rfl, rfl, rfl⟩

/-- A fresh connect-screen state with nothing stored. -/
def cx2 : AppState := mkConstructorState none d0 a0

/-- C2 counterexample: a fetch that resolves with well-formed JSON
lacking the `auth_url` field makes `connectToSpotify` do nothing at all
— no alert is shown (refuting the claim) and no navigation occurs. -/
theorem C2_counterexample :
    connectToSpotify (JsonOutcome.value none) cx2 =
      (cx2, [Effect.fetchAuthorize]) ∧
    Effect.alert "Failed to connect to Spotify. Please try again." ∉
      (connectToSpotify (JsonOutcome.value none) cx2).2 := by
  exact ⟨rfl, by decide⟩

/-- C2 (amended): when `authorize()` fails with a network error or a
JSON parse failure, a user-visible alert is shown and no navigation
occurs; a well-formed JSON response without a truthy `auth_url` causes
neither an alert nor navigation; in every case the state is unchanged
and exactly one authorize request is issued (no retry). -/
theorem C2_authorize_failure (s : AppState) :
    connectToSpotify JsonOutcome.thrown s =
      (s, [Effect.fetchAuthorize, Effect.logError,
           Effect.alert "Failed to connect to Spotify. Please try again."]) ∧
    connectToSpotify (JsonOutcome.value none) s =
      (s, [Effect.fetchAuthorize]) ∧
    (∀ o : JsonOutcome (Option String),
      (connectToSpotify o s).1 = s ∧
      ((connectToSpotify o s).2.count Effect.fetchAuthorize) = 1) := by
  refine ⟨rfl, rfl, ?_⟩
  intro o
  refine ⟨connectToSpotify_state o s, ?_⟩
  rcases o with _ | (_ | u)
  · rfl
  · rfl
  · unfold connectToSpotify
    split <;> first | rfl | (split <;> rfl)

/-- A reveal-screen state with seven tracks played. -/
def cx3 : AppState :=
  { currentScreen := Screen.reveal, selectedPlaylist := some p0,
    currentTrack := some t1, tracksPlayed := 7, currentColorIndex := 4,
    audio := { src := "http://s", paused := false }, dom := d0,
    localStore := some "tok" }

/-- C3 counterexample: the claim says `resetGame` sets the counter to
exactly 0 regardless of its prior value, but when the reset fetch
rejects the catch block skips the local reset: from `cx3` the counter
stays 7. -/
theorem C3_counterexample :
    (resetGame FetchOutcome.rejected cx3).1.tracksPlayed = 7 := rfl

/-- C3 (amended): the play counter starts at 0, increases by exactly 1
on each successful track fetch, stays put on a failed or empty fetch,
never decreases on any event other than reset, and `resetGame` sets it
to exactly 0 regardless of its prior value whenever the backend reset
call resolves — but leaves it unchanged when the fetch rejects. -/
theorem C3_play_counter :
    (∀ (store : Option String) (d : Dom) (a : AudioPlayer),
      (mkConstructorState store d a).tracksPlayed = 0) ∧
    (∀ (s : AppState) (p : Playlist) (t : Track),
      s.selectedPlaylist = some p →
      (playRandomTrack (JsonOutcome.value (some t)) s).1.tracksPlayed =
        s.tracksPlayed + 1) ∧
    (∀ s : AppState,
      (playRandomTrack JsonOutcome.thrown s).1.tracksPlayed =
        s.tracksPlayed ∧
      (playRandomTrack (JsonOutcome.value none) s).1.tracksPlayed =
        s.tracksPlayed) ∧
    (∀ (e : Event) (s : AppState), Event.isReset e = false →
      s.tracksPlayed ≤ (stepState e s).tracksPlayed) ∧
    (∀ (s : AppState) (ok : Bool),
      (resetGame (FetchOutcome.resolved ok) s).1.tracksPlayed = 0) ∧
    (∀ s : AppState,
      (resetGame FetchOutcome.rejected s).1.tracksPlayed =
        s.tracksPlayed) := by
  refine ⟨fun store d a => rfl,
    fun s p t hsel => playRandomTrack_tracks_succ t p s hsel,
    fun s => playRandomTrack_tracks_frame s, ?_,
    fun s ok => rfl, fun s => rfl⟩
  intro e s he
  cases e with
  | connectClick o => rw [stepState, connectToSpotify_state]
  | addPlaylistClick => exact le_refl _
  | removePlaylistClick => exact le_refl _
  | selectPlaylistClick p => exact le_refl _
  | startClick o =>
      rcases hsel : s.selectedPlaylist with _ | p
      · simp [stepState, startGame, hsel]
      · simp only [stepState, startGame, hsel]
        calc s.tracksPlayed = (showScreen Screen.game s).tracksPlayed := rfl
          _ ≤ _ := playRandomTrack_tracks_mono o (showScreen Screen.game s)
  | revealClick =>
      rw [stepState, revealCard_tracks]
  | playNextClick o =>
      simp only [stepState, playNextSong]
      calc s.tracksPlayed = (showScreen Screen.game s).tracksPlayed := rfl
        _ ≤ _ := playRandomTrack_tracks_mono o (showScreen Screen.game s)
  | spotifyClick => exact le_refl _
  | resetClick f => exact absurd he (by simp [Event.isReset])
  | headerPlayClick => exact le_refl _

/-- C3 witness: at `cx1` (playlist `p0` selected, five tracks played), a
successful fetch of track `t0` takes the counter to 6, and the reveal
event — not a reset — does not decrease it. -/
theorem C3_witness :
    cx1.selectedPlaylist = some p0 ∧
    (playRandomTrack (JsonOutcome.value (some t0)) cx1).1.tracksPlayed = 6 ∧
    Event.isReset Event.revealClick = false ∧
    cx1.tracksPlayed ≤ (stepState Event.revealClick cx1).tracksPlayed := by
  refine ⟨rfl, ?_, rfl, ?_⟩
  · exact C3_play_counter.2.1 cx1 p0 t0 rfl
  · exact C3_play_counter.2.2.2.1 Event.revealClick cx1 rfl

/-- C4: in every reachable state, a playlist is selected whenever the
active screen is `game` or `reveal`, and every event allowed on the
active screen preserves this invariant. -/
theorem C4_screen_playlist_invariant :
    (∀ s : AppState, Reachable s →
      (s.currentScreen = Screen.game ∨ s.currentScreen = Screen.reveal) →
      s.selectedPlaylist.isSome = true) ∧
    (∀ (e : Event) (s : AppState), eventAllowed e s.currentScreen = true →
      screenInv s = true → screenInv (stepState e s) = true) := by
  constructor
  · intro s hs hsc
    rcases hsc with hg | hr
    · exact screenInv_game s (reachable_screenInv s hs) hg
    · exact screenInv_reveal s (reachable_screenInv s hs) hr
  · exact fun e s => stepState_preserves_screenInv e s

/-- A startup state with a stored session: lands on the playlist screen. -/
def st4a : AppState :=
  (checkAuthStatus none (mkConstructorState (some "tok") d0 a0)).1

/-- `st4a` after selecting playlist `p0`. -/
def st4b : AppState := stepState (Event.selectPlaylistClick p0) st4a

/-- `st4b` after starting the game (fetch resolves without a track). -/
def st4c : AppState := stepState (Event.startClick (JsonOutcome.value none)) st4b

/-- C4 witness: `st4c` is reachable, sits on the game screen, and the
invariant theorem yields its selected playlist. -/
theorem C4_witness :
    st4c.currentScreen = Screen.game ∧
    st4c.selectedPlaylist.isSome = true := by
  have hb : Reachable st4b :=
    Reachable.step (Event.selectPlaylistClick p0) st4a
      (Reachable.init none (some "tok") d0 a0) (by decide)
  have hc : Reachable st4c :=
    Reachable.step (Event.startClick (JsonOutcome.value none)) st4b hb
      (by decide)
  exact ⟨by decide,
    C4_screen_playlist_invariant.1 st4c hc (Or.inl (by decide))⟩

/-- C5: from any state with no selected playlist, `startGame` alerts,
issues no track-fetch request, and leaves the whole state — screen
included — unchanged. -/
theorem C5_startGame_without_selection (s : AppState)
    (o : JsonOutcome (Option Track)) (h : s.selectedPlaylist = none) :
    startGame o s = (s, [Effect.alert "Please select a playlist first."]) ∧
    (∀ pid, Effect.fetchPlayTrack pid ∉ (startGame o s).2) := by
  have h1 : startGame o s =
      (s, [Effect.alert "Please select a playlist first."]) := by
    unfold startGame
    rw [h]
  refine ⟨h1, ?_⟩
  intro pid
  rw [h1]
  simp

/-- A playlist-screen state with no selection and no track. -/
def st5 : AppState :=
  { currentScreen := Screen.playlist, selectedPlaylist := none,
    currentTrack := none, tracksPlayed := 0, currentColorIndex := 0,
    audio := a0, dom := d0, localStore := some "tok" }

/-- C5 witness: at `st5` (nothing selected), `startGame` only alerts. -/
theorem C5_witness :
    st5.selectedPlaylist = none ∧
    startGame JsonOutcome.thrown st5 =
      (st5, [Effect.alert "Please select a playlist first."]) :=
  ⟨rfl, (C5_startGame_without_selection st5 JsonOutcome.thrown rfl).1⟩

/-- C6: from any state with no loaded track, `revealCard` alerts and
leaves the whole state — in particular the active screen — unchanged. -/
theorem C6_revealCard_without_track (s : AppState)
    (h : s.currentTrack = none) :
    revealCard s = (s, [Effect.alert "No track loaded. Please try again."]) := by
  unfold revealCard
  rw [h]

/-- A game-screen state whose track fetch never delivered a track. -/
def st6 : AppState :=
  { currentScreen := Screen.game, selectedPlaylist := some p0,
    currentTrack := none, tracksPlayed := 0, currentColorIndex := 0,
    audio := a0, dom := d0, localStore := some "tok" }

/-- C6 witness: at `st6` (no track loaded), `revealCard` only alerts and
the screen stays `game`. -/
theorem C6_witness :
    st6.currentTrack = none ∧
    revealCard st6 =
      (st6, [Effect.alert "No track loaded. Please try again."]) ∧
    (revealCard st6).1.currentScreen = Screen.game := by
  have h := C6_revealCard_without_track st6 rfl
  exact ⟨rfl, h, by rw [h]; rfl⟩

/-- C7: the color advance is deterministic and cyclic with period 8:
from any in-range index it returns the index's color, advances the
index by exactly one position modulo 8, and eight successive advances
return the index — hence the color — to where it started. -/
theorem C7_color_cycle (i : Nat) (h : i < 8) :
    (getNextCardColor i).1 = cardColors.getD i "" ∧
    (getNextCardColor i).2 = (i + 1) % 8 ∧
    Nat.iterate (fun j => (getNextCardColor j).2) 8 i = i := by
  interval_cases i <;> exact ⟨rfl, rfl, rfl⟩

/-- C7 witness: from index 5 the call yields the sixth color and index
6, and eight advances come back to 5. -/
theorem C7_witness :
    5 < 8 ∧ (getNextCardColor 5).1 = "card-color-6" ∧
    (getNextCardColor 5).2 = 6 ∧
    Nat.iterate (fun j => (getNextCardColor j).2) 8 5 = 5 := by
  have h := C7_color_cycle 5 (by decide)
  exact ⟨by decide, by simpa [cardColors] using h.1, h.2.1, h.2.2⟩

/-- C8: at startup with no `session_id` URL parameter and no stored
`spotify_session` entry, the active screen is `connect` and no playlist
load is triggered; with `session_id=abc123` in the URL, the token
`abc123` is persisted, the active screen becomes `playlist`, and a
playlist load is triggered. -/
theorem C8_startup_screen (store : Option String) (d : Dom)
    (a : AudioPlayer) :
    (checkAuthStatus none (mkConstructorState none d a)).1.currentScreen =
      Screen.connect ∧
    (checkAuthStatus none (mkConstructorState none d a)).2 = [] ∧
    (checkAuthStatus (some "abc123")
        (mkConstructorState store d a)).1.localStore = some "abc123" ∧
    (checkAuthStatus (some "abc123")
        (mkConstructorState store d a)).1.currentScreen = Screen.playlist ∧
    (checkAuthStatus (some "abc123") (mkConstructorState store d a)).2 =
      [Effect.fetchPlaylists] :=
  ⟨rfl, rfl, rfl, rfl, rfl⟩

/-- C9: with a track loaded, `revealCard` fills the reveal screen from
the current track and counter — artist, song name, the play count, and
the year, which falls back to "Unknown" when the field is absent and is
shown verbatim when present and non-empty. -/
theorem C9_reveal_fields (s : AppState) (t : Track)
    (h : s.currentTrack = some t) :
    (revealCard s).1.dom.artistName = t.artist ∧
    (revealCard s).1.dom.songName = t.name ∧
    (revealCard s).1.dom.revealTracksPlayedText =
      toString s.tracksPlayed ∧
    (t.year = none → (revealCard s).1.dom.releaseYear = "Unknown") ∧
    (∀ y, t.year = some y → y ≠ "" →
      (revealCard s).1.dom.releaseYear = y) := by
  unfold revealCard
  rw [h]
  refine ⟨rfl, rfl, rfl, ?_, ?_⟩
  · intro hy
    simp [hy, showScreen]
  · intro y hy hne
    simp [hy, hne, showScreen]

/-- A game-screen state carrying the yearless track `t0`. -/
def st9 : AppState :=
  { currentScreen := Screen.game, selectedPlaylist := some p0,
    currentTrack := some t0, tracksPlayed := 3, currentColorIndex := 0,
    audio := a0, dom := d0, localStore := some "tok" }

/-- C9 witness: revealing the yearless track `t0` at `st9` shows
"Unknown" as the year and `t0`'s artist. -/
theorem C9_witness :
    st9.currentTrack = some t0 ∧ t0.year = none ∧
    (revealCard st9).1.dom.releaseYear = "Unknown" ∧
    (revealCard st9).1.dom.artistName = "Y" :=
  ⟨rfl, rfl, (C9_reveal_fields st9 t0 rfl).2.2.2.1 rfl,
   (C9_reveal_fields st9 t0 rfl).1⟩

/-- C10: `resetGame` never touches the selected playlist — whatever the
fetch outcome — and from any state whose playlist is selected, the
post-reset state lets `startGame` proceed: it moves to the game screen
and raises no "select a playlist" alert. -/
theorem C10_reset_keeps_selection (s : AppState) (f : FetchOutcome) :
    (resetGame f s).1.selectedPlaylist = s.selectedPlaylist ∧
    (∀ (p : Playlist) (o : JsonOutcome (Option Track)),
      s.selectedPlaylist = some p →
      (startGame o (resetGame f s).1).1.currentScreen = Screen.game ∧
      Effect.alert "Please select a playlist first." ∉
        (startGame o (resetGame f s).1).2) := by
  have hkeep : (resetGame f s).1.selectedPlaylist = s.selectedPlaylist := by
    cases f <;> rfl
  refine ⟨hkeep, ?_⟩
  intro p o hsel
  have hsel2 : (resetGame f s).1.selectedPlaylist = some p := by
    rw [hkeep, hsel]
  constructor
  · have hf :=
      (playRandomTrack_frame o (showScreen Screen.game (resetGame f s).1)).1
    simp only [startGame, hsel2]
    rw [hf]
    rfl
  · simp only [startGame, hsel2]
    exact playRandomTrack_noSelectAlert o _

/-- C10 witness: from `cx1` (playlist `p0` selected), a resolved reset
keeps `p0` selected and a following `startGame` reaches the game
screen. -/
theorem C10_witness :
    cx1.selectedPlaylist = some p0 ∧
    (resetGame (FetchOutcome.resolved true) cx1).1.selectedPlaylist =
      some p0 ∧
    (startGame (JsonOutcome.value none)
        (resetGame (FetchOutcome.resolved true) cx1).1).1.currentScreen =
      Screen.game := by
  have h := C10_reset_keeps_selection cx1 (FetchOutcome.resolved true)
  exact ⟨rfl, by rw [h.1]; rfl, (h.2 p0 (JsonOutcome.value none) rfl).1⟩
